import Mathlib

/-!
Verification development for the rider-dispatch engine of the HonestEats
food-delivery backend.

The definitions below are a shallow embedding of the Python sources:
* `src/utils/geohash.py`      — geohash encode / decode / neighbors / precision
* `src/utils/distance.py`     — haversine distance (transcendental primitives
                                abstracted as function parameters)
* `src/services/rider_service.py`          — rider registry and radius query
* `src/services/order_assignment_service.py` — the `assign` algorithm
* `src/routes/rider_order_routes.py`       — rider accept / reject / status routes
* `src/order_accept_reject_checker.py`     — the offer-timeout lambda

Machine floats of the source are modelled as rationals (all geohash range
arithmetic is exact midpoint bisection); DynamoDB items are modelled as typed
records whose fields are the attributes the dispatch code reads and writes,
with an absent attribute represented by `none` (resp. `[]` for list
attributes).  Timestamps and generated OTPs are passed in as explicit
parameters.
-/

namespace HonestEats

/-- Base32 alphabet of `src/utils/geohash.py` (`BASE32`). -/
def BASE32 : List Char := "0123456789bcdefghjkmnpqrstuvwxyz".toList

/-- The bisection state of the geohash `encode` loop: the current latitude and
longitude intervals and the `even` flag that says whether the next emitted bit
refines longitude (`even = true`) or latitude. -/
structure EncSt where
  latLo : ℚ
  latHi : ℚ
  lonLo : ℚ
  lonHi : ℚ
  even : Bool
deriving Repr, DecidableEq

/-- Initial state of the `encode` loop: ranges `[-90, 90]` and `[-180, 180]`,
longitude first. -/
def encInit : EncSt := ⟨-90, 90, -180, 180, true⟩

/-- One iteration of the `while` loop body of `encode`
(`src/utils/geohash.py`, lines 29-52): emit one bit and halve the current
range, toggling `even`. -/
def encStep (lat lon : ℚ) (s : EncSt) : Bool × EncSt :=
  if s.even then
    let mid := (s.lonLo + s.lonHi) / 2
    if lon > mid then (true, { s with lonLo := mid, even := false })
    else (false, { s with lonHi := mid, even := false })
  else
    let mid := (s.latLo + s.latHi) / 2
    if lat > mid then (true, { s with latLo := mid, even := true })
    else (false, { s with latHi := mid, even := true })

/-- The first `n` bits emitted by the `encode` loop starting from state `s`. -/
def encBits (lat lon : ℚ) : EncSt → ℕ → List Bool
  | _, 0 => []
  | s, n + 1 => (encStep lat lon s).1 :: encBits lat lon (encStep lat lon s).2 n

/-- State of the `encode` loop after `n` iterations. -/
def encIter (lat lon : ℚ) : EncSt → ℕ → EncSt
  | s, 0 => s
  | s, n + 1 => encIter lat lon (encStep lat lon s).2 n

/-- Pack five bits (most significant first, as built by `bit |= 1 << (4 - bits)`)
into one base-32 character. -/
def base32Char (b0 b1 b2 b3 b4 : Bool) : Char :=
  BASE32.getD (16 * b0.toNat + 8 * b1.toNat + 4 * b2.toNat + 2 * b3.toNat + b4.toNat) ' '

/-- Group a bit list five at a time into base-32 characters; a trailing group
of fewer than five bits is never produced by `encode` and is dropped. -/
def chunk5 : List Bool → List Char
  | b0 :: b1 :: b2 :: b3 :: b4 :: rest => base32Char b0 b1 b2 b3 b4 :: chunk5 rest
  | _ => []

/-- Model of `encode(latitude, longitude, precision)` of `src/utils/geohash.py`:
the loop runs until `precision` characters have been appended, i.e. exactly
`5 * precision` bit iterations, and the bits are packed five per character. -/
def encodeChars (lat lon : ℚ) (precision : ℕ) : List Char :=
  chunk5 (encBits lat lon encInit (5 * precision))

/-- Variant of `encode` returning the geohash as a string, as the Python function does. -/
def encode (lat lon : ℚ) (precision : ℕ) : String :=
  ⟨encodeChars lat lon precision⟩

theorem encBits_append (lat lon : ℚ) (n : ℕ) :
    ∀ (s : EncSt) (m : ℕ),
      encBits lat lon s (n + m) = encBits lat lon s n ++ encBits lat lon (encIter lat lon s n) m := by
  induction n with
  | zero => intro s m; simp [encBits, encIter]
  | succ n ih =>
    intro s m
    have h : n + 1 + m = (n + m) + 1 := by omega
    rw [h]
    simp only [encBits, encIter, ih]
    rfl

theorem encBits_length (lat lon : ℚ) :
    ∀ (s : EncSt) (n : ℕ), (encBits lat lon s n).length = n := by
  intro s n
  induction n generalizing s with
  | zero => rfl
  | succ n ih => simp [encBits, ih]

theorem encBits_take (lat lon : ℚ) (s : EncSt) {n m : ℕ} (h : n ≤ m) :
    (encBits lat lon s m).take n = encBits lat lon s n := by
  rw [show m = n + (m - n) by omega, encBits_append]
  rw [List.take_append_of_le_length (by rw [encBits_length])]
  rw [List.take_of_length_le (by rw [encBits_length])]

theorem chunk5_take (k : ℕ) :
    ∀ l : List Bool, (chunk5 l).take k = chunk5 (l.take (5 * k)) := by
  induction k with
  | zero => intro l; simp [chunk5]
  | succ k ih =>
    intro l
    match l with
    | [] => simp [chunk5]
    | [b0] => simp [chunk5]
    | [b0, b1] => simp [chunk5]
    | [b0, b1, b2] => simp [chunk5]
    | [b0, b1, b2, b3] => simp [chunk5]
    | b0 :: b1 :: b2 :: b3 :: b4 :: rest =>
      rw [show 5 * (k + 1) = 5 * k + 1 + 1 + 1 + 1 + 1 by ring]
      simp only [List.take_succ_cons]
      show (base32Char b0 b1 b2 b3 b4 :: chunk5 rest).take (k + 1)
          = base32Char b0 b1 b2 b3 b4 :: chunk5 (rest.take (5 * k))
      rw [List.take_succ_cons, ih]

/-- Helper: prefix truncation of a finer geohash equals the coarser geohash,
for any two precisions. -/
theorem encodeChars_take (lat lon : ℚ) {k p : ℕ} (h : k ≤ p) :
    (encodeChars lat lon p).take k = encodeChars lat lon k := by
  unfold encodeChars
  rw [chunk5_take, encBits_take]
  omega

/-- C9: for every point `(lat, lon)` in valid coordinate ranges and every
`k ≤ 7`, `encode(p, 7)` truncated to its first `k` characters equals
`encode(p, k)`. -/
theorem C9_encode_prefix_consistency (lat lon : ℚ) (k : ℕ)
    (_hlat : -90 ≤ lat ∧ lat ≤ 90) (_hlon : -180 ≤ lon ∧ lon ≤ 180) (hk : k ≤ 7) :
    (encode lat lon 7).toList.take k = (encode lat lon k).toList := by
  show (encodeChars lat lon 7).take k = encodeChars lat lon k
  exact encodeChars_take lat lon hk

/-- Witness for C9 at the concrete point `(1/2, 1/3)` with `k = 3`. -/
theorem C9_encode_prefix_consistency_witness :
    ((-90 : ℚ) ≤ 1/2 ∧ (1/2 : ℚ) ≤ 90) ∧ ((-180 : ℚ) ≤ 1/3 ∧ (1/3 : ℚ) ≤ 180) ∧ 3 ≤ 7 ∧
      (encode (1/2) (1/3) 7).toList.take 3 = (encode (1/2) (1/3) 3).toList :=
  ⟨by norm_num, by norm_num, by norm_num,
    C9_encode_prefix_consistency (1/2) (1/3) 3 (by norm_num) (by norm_num) (by norm_num)⟩

/-- One bit of the `decode` loop (`src/utils/geohash.py`, lines 73-93):
refine the longitude range when `even`, the latitude range otherwise. -/
def decBit (b : Bool) (s : EncSt) : EncSt :=
  if s.even then
    let mid := (s.lonLo + s.lonHi) / 2
    if b then { s with lonLo := mid, even := false } else { s with lonHi := mid, even := false }
  else
    let mid := (s.latLo + s.latHi) / 2
    if b then { s with latLo := mid, even := true } else { s with latHi := mid, even := true }

/-- The five bits `(idx >> i) & 1` for `i = 4, 3, 2, 1, 0`, where `idx` is the
position of the character in `BASE32`.  Python's `BASE32.index` raises on a
character outside the alphabet; we use `List.indexOf`, which agrees with it on
the alphabet, and state theorems under the corresponding validity hypothesis. -/
def charBits (c : Char) : List Bool :=
  let idx := BASE32.indexOf c
  [idx.testBit 4, idx.testBit 3, idx.testBit 2, idx.testBit 1, idx.testBit 0]

/-- Model of `decode(geohash)` of `src/utils/geohash.py`: refine the ranges one
character (five bits) at a time and return the midpoints `(latitude, longitude)`. -/
def decode (gh : List Char) : ℚ × ℚ :=
  let s := gh.foldl (fun st c => (charBits c).foldl (fun st b => decBit b st) st) encInit
  ((s.latLo + s.latHi) / 2, (s.lonLo + s.lonHi) / 2)

/-- The fixed degree offset used by `get_neighbors` (`0.0014`, tuned for
precision 7, ~153 m cells). -/
def latOffset : ℚ := 14 / 10000

/-- The 8 compass-direction offsets of `get_neighbors`, in source order
N, NE, E, SE, S, SW, W, NW. -/
def neighborOffsets : List (ℚ × ℚ) :=
  [(latOffset, 0), (latOffset, latOffset), (0, latOffset), (-latOffset, latOffset),
   (-latOffset, 0), (-latOffset, -latOffset), (0, -latOffset), (latOffset, -latOffset)]

/-- The body of the `for` loop of `get_neighbors`: append the candidate if it
is not already collected and differs from the origin hash. -/
def neighborStep (gh : List Char) (acc : List (List Char)) (n : List Char) : List (List Char) :=
  if n ∉ acc ∧ n ≠ gh then acc ++ [n] else acc

/-- Model of `get_neighbors(geohash)` of `src/utils/geohash.py`: decode to a center,
offset by the fixed deltas in each of the 8 compass directions, re-encode at
the same precision, and collect skipping duplicates and the origin hash. -/
def get_neighbors (gh : List Char) : List (List Char) :=
  let c := decode gh
  let precision := gh.length
  neighborOffsets.foldl
    (fun acc off => neighborStep gh acc (encodeChars (c.1 + off.1) (c.2 + off.2) precision)) []

theorem mem_neighborFold (gh : List Char) (f : ℚ × ℚ → List Char) :
    ∀ (cands : List (ℚ × ℚ)) (acc : List (List Char)) (h : List Char),
      h ∈ cands.foldl (fun acc off => neighborStep gh acc (f off)) acc ↔
        h ∈ acc ∨ (h ≠ gh ∧ ∃ off ∈ cands, h = f off) := by
  intro cands
  induction cands with
  | nil => intro acc h; simp
  | cons n rest ih =>
    intro acc h
    rw [List.foldl_cons, ih]
    unfold neighborStep
    by_cases hadd : f n ∉ acc ∧ f n ≠ gh
    · rw [if_pos hadd]
      simp only [List.mem_append, List.mem_cons, List.not_mem_nil, or_false]
      constructor
      · rintro ((hmem | rfl) | ⟨hne, off, hoff, rfl⟩)
        · exact Or.inl hmem
        · exact Or.inr ⟨hadd.2, n, Or.inl rfl, rfl⟩
        · exact Or.inr ⟨hne, off, Or.inr hoff, rfl⟩
      · rintro (hmem | ⟨hne, off, rfl | hoff, rfl⟩)
        · exact Or.inl (Or.inl hmem)
        · exact Or.inl (Or.inr rfl)
        · exact Or.inr ⟨hne, off, hoff, rfl⟩
    · rw [if_neg hadd]
      push_neg at hadd
      simp only [List.mem_cons]
      constructor
      · rintro (hmem | ⟨hne, off, hoff, rfl⟩)
        · exact Or.inl hmem
        · exact Or.inr ⟨hne, off, Or.inr hoff, rfl⟩
      · rintro (hmem | ⟨hne, off, rfl | hoff, rfl⟩)
        · exact Or.inl hmem
        · by_cases hin : f off ∈ acc
          · exact Or.inl hin
          · exact absurd (hadd hin) hne
        · exact Or.inr ⟨hne, off, hoff, rfl⟩

theorem nodup_neighborFold (gh : List Char) (f : ℚ × ℚ → List Char) :
    ∀ (cands : List (ℚ × ℚ)) (acc : List (List Char)),
      acc.Nodup → gh ∉ acc →
      (cands.foldl (fun acc off => neighborStep gh acc (f off)) acc).Nodup ∧
        gh ∉ cands.foldl (fun acc off => neighborStep gh acc (f off)) acc := by
  intro cands
  induction cands with
  | nil => intro acc hnd hgh; exact ⟨hnd, hgh⟩
  | cons n rest ih =>
    intro acc hnd hgh
    rw [List.foldl_cons]
    apply ih
    · unfold neighborStep
      split
      · rename_i hadd
        refine List.Nodup.append hnd (List.nodup_singleton _) ?_
        intro a ha hb
        rw [List.mem_singleton] at hb
        exact hadd.1 (hb ▸ ha)
      · exact hnd
    · unfold neighborStep
      split
      · rename_i hadd
        simp only [List.mem_append, List.mem_singleton]
        rintro (hmem | heq)
        · exact hgh hmem
        · exact hadd.2 heq.symm
      · exact hgh

/-- C4: for every geohash string, `get_neighbors` returns exactly the
re-encodings (at the same precision) of the decoded center offset by one fixed
cell-width delta in each of the 8 compass directions, with duplicates and the
origin hash excluded: the result has no duplicates, never contains the origin
hash, and contains a hash `h` iff `h` differs from the origin and arises from
one of the 8 offsets. -/
theorem C4_get_neighbors_characterization (gh : List Char)
    (_hgh : ∀ c ∈ gh, c ∈ BASE32) :
    (get_neighbors gh).Nodup ∧ gh ∉ get_neighbors gh ∧
      ∀ h, h ∈ get_neighbors gh ↔
        h ≠ gh ∧ ∃ off ∈ neighborOffsets,
          h = encodeChars ((decode gh).1 + off.1) ((decode gh).2 + off.2) gh.length := by
  have hnd := nodup_neighborFold gh
    (fun off => encodeChars ((decode gh).1 + off.1) ((decode gh).2 + off.2) gh.length)
    neighborOffsets [] (List.nodup_nil) (List.not_mem_nil gh)
  refine ⟨hnd.1, hnd.2, fun h => ?_⟩
  have := mem_neighborFold gh
    (fun off => encodeChars ((decode gh).1 + off.1) ((decode gh).2 + off.2) gh.length)
    neighborOffsets [] h
  rw [show get_neighbors gh = neighborOffsets.foldl
    (fun acc off => neighborStep gh acc
      (encodeChars ((decode gh).1 + off.1) ((decode gh).2 + off.2) gh.length)) [] from rfl]
  rw [this]
  simp

/-- Witness for C4 at the concrete precision-7 geohash `tdr1wxy`. -/
theorem C4_get_neighbors_characterization_witness :
    (∀ c ∈ "tdr1wxy".toList, c ∈ BASE32) ∧
      ((get_neighbors "tdr1wxy".toList).Nodup ∧ "tdr1wxy".toList ∉ get_neighbors "tdr1wxy".toList ∧
        ∀ h, h ∈ get_neighbors "tdr1wxy".toList ↔
          h ≠ "tdr1wxy".toList ∧ ∃ off ∈ neighborOffsets,
            h = encodeChars ((decode "tdr1wxy".toList).1 + off.1)
              ((decode "tdr1wxy".toList).2 + off.2) "tdr1wxy".toList.length) :=
  ⟨by decide, C4_get_neighbors_characterization ("tdr1wxy".toList) (by decide)⟩

/-- Model of `get_precision_for_radius(radius_km)` of `src/utils/geohash.py`:
the fixed step function from search radius to geohash precision. -/
def get_precision_for_radius (radius_km : ℚ) : ℕ :=
  if radius_km ≤ 1/20 then 7
  else if radius_km ≤ 1/2 then 6
  else if radius_km ≤ 5 then 5
  else if radius_km ≤ 15 then 4
  else if radius_km ≤ 50 then 3
  else 2

/-- The transcendental primitives of Python's `math` module used by
`src/utils/distance.py`, abstracted as unspecified rational functions (the
claims about the rider query hold for every interpretation of these). -/
structure MathPrims where
  sin : ℚ → ℚ
  cos : ℚ → ℚ
  sqrt : ℚ → ℚ
  atan2 : ℚ → ℚ → ℚ
  radians : ℚ → ℚ

/-- Model of `calculate_distance(lat1, lon1, lat2, lon2)` of `src/utils/distance.py`:
the haversine formula with Earth radius 6371 km. -/
def calculate_distance (M : MathPrims) (lat1 lon1 lat2 lon2 : ℚ) : ℚ :=
  let R : ℚ := 6371
  let dLat := M.radians (lat2 - lat1)
  let dLon := M.radians (lon2 - lon1)
  let a := M.sin (dLat / 2) * M.sin (dLat / 2) +
    M.cos (M.radians lat1) * M.cos (M.radians lat2) * M.sin (dLon / 2) * M.sin (dLon / 2)
  let c := 2 * M.atan2 (M.sqrt a) (M.sqrt (1 - a))
  R * c

/-- The stored `workingOnOrder` DynamoDB attribute of a rider item.  Its
type matters: `RiderService.set_working_on_order` writes it as a *string*
attribute (`{'S': order_id}`, `src/services/rider_service.py` line 216),
while the offer-timeout checker writes it as a *list* attribute
(`{'L': [...]}`) or removes it. -/
inductive WorkAttr where
  | absent : WorkAttr
  | str : String → WorkAttr
  | list : List String → WorkAttr
deriving Repr, DecidableEq

/-- Model of the `workingOnOrder` deserialization in `Rider.from_dynamodb_item`
(`src/models/rider.py` line 112): only the DynamoDB List form is recognised
(`item.get("workingOnOrder", {}).get("L", [])`); an absent attribute — and,
crucially, the string-typed attribute written by `set_working_on_order` —
parses to `[]`. -/
def WorkAttr.parsed : WorkAttr → List String
  | .list l => l
  | _ => []

/-- A rider record (`src/models/rider.py` / the riders DynamoDB item), with
the attributes the dispatch code reads and writes.  `workingOnOrder` is the
stored DynamoDB attribute; readers (`from_dynamodb_item`) see its
`WorkAttr.parsed` view.  `geohash` is the stored precision-7 geohash of the
rider's last reported position; the GSI partition keys at precisions 6/5/4
are its prefixes, as written by `update_location`. -/
structure Rider where
  riderId : String
  phone : String
  lat : Option ℚ
  lng : Option ℚ
  speed : Option ℚ
  heading : Option ℚ
  isActive : Bool
  workingOnOrder : WorkAttr
  geohash : Option (List Char)
deriving Repr, DecidableEq

/-- Python truthiness of an optional float field: `None` and `0.0` are falsy. -/
def qTruthy : Option ℚ → Bool
  | none => false
  | some v => decide (v ≠ 0)

/-- Model of `RiderService._query_riders_by_geohash(geohash, precision)` of
`src/services/rider_service.py`: precision 7 has no index and returns `[]`
without querying; precisions 6/5/4 query GSI1/GSI2/GSI3, whose partition key
is the rider's stored geohash truncated to that precision; any other
precision raises `ValueError`, which the function's own handler catches,
returning `[]`. -/
def queryRidersByGeohash (db : List Rider) (gh : List Char) (precision : ℕ) : List Rider :=
  if precision = 7 then []
  else if precision = 6 ∨ precision = 5 ∨ precision = 4 then
    db.filter (fun r => r.geohash.map (fun g => g.take precision) = some gh)
  else []

/-- Model of `RiderService.find_available_riders_near(lat, lng, radius_km)` of
`src/services/rider_service.py`: pick the precision for the radius, query the
center cell and its neighbors, filter to active riders with no current order
and truthy coordinates, keep those within `radius_km` of the query point, and
sort ascending by distance (Python's stable `list.sort`, modelled by
`mergeSort`). -/
def find_available_riders_near (M : MathPrims) (db : List Rider)
    (lat lng radius_km : ℚ) : List (Rider × ℚ) :=
  let precision := get_precision_for_radius radius_km
  let center := encodeChars lat lng precision
  let ghs := center :: get_neighbors center
  let all := ghs.flatMap (fun gh => queryRidersByGeohash db gh precision)
  let available := all.filter
    (fun r => r.isActive && r.workingOnOrder.parsed.isEmpty && qTruthy r.lat && qTruthy r.lng)
  let nearby := (available.map
    (fun r => (r, calculate_distance M lat lng (r.lat.getD 0) (r.lng.getD 0)))).filter
      (fun rd => rd.2 ≤ radius_km)
  nearby.mergeSort (fun a b => a.2 ≤ b.2)

/-- C10: for every radius at most 0.05 km the selected precision is 7, the
per-cell index query at precision 7 unconditionally returns the empty list,
and hence `find_available_riders_near` returns no riders whatever the
database contains. -/
theorem C10_small_radius_returns_empty (M : MathPrims) (db db2 : List Rider)
    (gh : List Char) (lat lng radius_km : ℚ) (h : radius_km ≤ 1/20) :
    get_precision_for_radius radius_km = 7 ∧
      queryRidersByGeohash db2 gh 7 = [] ∧
      find_available_riders_near M db lat lng radius_km = [] := by
  have hp : get_precision_for_radius radius_km = 7 := by
    unfold get_precision_for_radius
    rw [if_pos h]
  refine ⟨hp, rfl, ?_⟩
  unfold find_available_riders_near
  rw [hp]
  simp [queryRidersByGeohash, List.flatMap]

/-- Witness for C10 at radius 0.01 km with a nonempty database. -/
theorem C10_small_radius_returns_empty_witness :
    (1/100 : ℚ) ≤ 1/20 ∧
      (get_precision_for_radius (1/100) = 7 ∧
        queryRidersByGeohash [⟨"r1", "p", some 1, some 1, some 0, some 0, true, WorkAttr.absent, none⟩]
          [] 7 = [] ∧
        find_available_riders_near ⟨id, id, id, fun _ _ => 0, id⟩
          [⟨"r1", "p", some 1, some 1, some 0, some 0, true, WorkAttr.absent, none⟩] 1 1 (1/100) = []) :=
  ⟨by norm_num,
    C10_small_radius_returns_empty ⟨id, id, id, fun _ _ => 0, id⟩
      [⟨"r1", "p", some 1, some 1, some 0, some 0, true, WorkAttr.absent, none⟩]
      [⟨"r1", "p", some 1, some 1, some 0, some 0, true, WorkAttr.absent, none⟩]
      [] 1 1 (1/100) (by norm_num)⟩

theorem mem_queryRidersByGeohash {db : List Rider} {gh : List Char} {p : ℕ} {r : Rider}
    (h : r ∈ queryRidersByGeohash db gh p) :
    r ∈ db ∧ r.geohash.map (fun g => g.take p) = some gh := by
  unfold queryRidersByGeohash at h
  split at h
  · exact absurd h (List.not_mem_nil r)
  · split at h
    · exact ⟨(List.mem_filter.mp h).1, by simpa using (List.mem_filter.mp h).2⟩
    · exact absurd h (List.not_mem_nil r)

theorem queryRidersByGeohash_sublist (db : List Rider) (gh : List Char) (p : ℕ) :
    (queryRidersByGeohash db gh p).Sublist db := by
  unfold queryRidersByGeohash
  split
  · exact List.nil_sublist db
  · split
    · exact List.filter_sublist db
    · exact List.nil_sublist db

theorem nodup_cons_get_neighbors (gh : List Char) :
    (gh :: get_neighbors gh).Nodup := by
  have hnd := nodup_neighborFold gh
    (fun off => encodeChars ((decode gh).1 + off.1) ((decode gh).2 + off.2) gh.length)
    neighborOffsets [] (List.nodup_nil) (List.not_mem_nil gh)
  exact List.nodup_cons.mpr ⟨hnd.2, hnd.1⟩

theorem nodup_flatMap_query (db : List Rider) (p : ℕ)
    (hdb : (db.map Rider.riderId).Nodup) :
    ∀ ghs : List (List Char), ghs.Nodup →
      ((ghs.flatMap (fun gh => queryRidersByGeohash db gh p)).map Rider.riderId).Nodup := by
  intro ghs
  induction ghs with
  | nil => intro _; simp
  | cons gh rest ih =>
    intro hnd
    rw [List.nodup_cons] at hnd
    rw [List.flatMap_cons, List.map_append]
    rw [List.nodup_append]
    refine ⟨((queryRidersByGeohash_sublist db gh p).map Rider.riderId).nodup hdb,
      ih hnd.2, ?_⟩
    intro a ha hb
    rw [List.mem_map] at ha
    obtain ⟨r, hr, rfl⟩ := ha
    rw [List.mem_map] at hb
    obtain ⟨r2, hr2, hid⟩ := hb
    rw [List.mem_flatMap] at hr2
    obtain ⟨gh2, hgh2, hr2q⟩ := hr2
    have h1 := mem_queryRidersByGeohash hr
    have h2 := mem_queryRidersByGeohash hr2q
    have : r2 = r := List.inj_on_of_nodup_map hdb h2.1 h1.1 hid
    subst this
    have : some gh = some gh2 := h1.2 ▸ h2.2
    exact hnd.1 (Option.some_injective _ this ▸ hgh2)

/-- Partial eligibility of `find_available_riders_near`: every returned rider
is online (`isActive`), its *deserialized* `workingOnOrder` list is empty,
and its paired distance is the haversine distance computed by
`calculate_distance` and is at most the requested radius; the result is
sorted by ascending distance; and (provided rider IDs are unique in the
table, as they are under the DynamoDB partition key) no rider appears twice.
Note this does **not** establish that the rider holds no order: a busy
marker written by `set_working_on_order` is string-typed and deserializes to
`[]` (see the C5 theorem below). -/
theorem find_available_partial_eligibility (M : MathPrims) (db : List Rider)
    (lat lng radius_km : ℚ) (hdb : (db.map Rider.riderId).Nodup) :
    (∀ p ∈ find_available_riders_near M db lat lng radius_km,
        p.1.isActive = true ∧ p.1.workingOnOrder.parsed = [] ∧
        p.2 = calculate_distance M lat lng (p.1.lat.getD 0) (p.1.lng.getD 0) ∧
        p.2 ≤ radius_km) ∧
      List.Sorted (fun a b : Rider × ℚ => a.2 ≤ b.2)
        (find_available_riders_near M db lat lng radius_km) ∧
      ((find_available_riders_near M db lat lng radius_km).map
        (fun p => p.1.riderId)).Nodup := by
  have hdef : find_available_riders_near M db lat lng radius_km =
      (List.filter (fun rd => rd.2 ≤ radius_km)
        (List.map (fun r => (r, calculate_distance M lat lng (r.lat.getD 0) (r.lng.getD 0)))
          (List.filter
            (fun r => r.isActive && r.workingOnOrder.parsed.isEmpty && qTruthy r.lat && qTruthy r.lng)
            ((encodeChars lat lng (get_precision_for_radius radius_km) ::
              get_neighbors (encodeChars lat lng (get_precision_for_radius radius_km))).flatMap
              (fun gh => queryRidersByGeohash db gh (get_precision_for_radius radius_km)))))).mergeSort
        (fun a b => a.2 ≤ b.2) := rfl
  rw [hdef]
  set precision := get_precision_for_radius radius_km with hprec
  set center := encodeChars lat lng precision with hcenter
  set ghs := center :: get_neighbors center with hghs
  set all := ghs.flatMap (fun gh => queryRidersByGeohash db gh precision) with hall
  set available := all.filter
    (fun r => r.isActive && r.workingOnOrder.parsed.isEmpty && qTruthy r.lat && qTruthy r.lng)
    with havail
  set nearby := (available.map
    (fun r => (r, calculate_distance M lat lng (r.lat.getD 0) (r.lng.getD 0)))).filter
      (fun rd => rd.2 ≤ radius_km) with hnearby
  have hperm : (nearby.mergeSort (fun a b => a.2 ≤ b.2)).Perm nearby :=
    List.mergeSort_perm nearby _
  refine ⟨?_, ?_, ?_⟩
  · intro p hp
    have hpn : p ∈ nearby := hperm.mem_iff.mp hp
    rw [hnearby, List.mem_filter] at hpn
    obtain ⟨hpm, hple⟩ := hpn
    rw [List.mem_map] at hpm
    obtain ⟨r, hr, rfl⟩ := hpm
    rw [havail, List.mem_filter] at hr
    have hcond := hr.2
    simp only [Bool.and_eq_true, List.isEmpty_iff] at hcond
    exact ⟨hcond.1.1.1, hcond.1.1.2, rfl, by simpa using hple⟩
  · have hs := @List.sorted_mergeSort (Rider × ℚ)
      (fun a b => decide (a.2 ≤ b.2))
      (fun a b c hab hbc => by
        simp only [decide_eq_true_eq] at *
        exact le_trans hab hbc)
      (fun a b => by
        simp only [Bool.or_eq_true, decide_eq_true_eq]
        exact le_total a.2 b.2)
      nearby
    exact hs.imp (fun h => by simpa using h)
  · refine (hperm.map (fun p => p.1.riderId)).symm.nodup ?_
    have hids : nearby.map (fun p => p.1.riderId) |>.Sublist
        (available.map Rider.riderId) := by
      have hsub := @List.filter_sublist (Rider × ℚ)
        (fun rd => decide (rd.2 ≤ radius_km))
        (available.map
          (fun r => (r, calculate_distance M lat lng (r.lat.getD 0) (r.lng.getD 0))))
      have := hsub.map (fun p : Rider × ℚ => p.1.riderId)
      rw [List.map_map] at this
      exact this
    refine hids.nodup ?_
    have hsubav : available.Sublist all := List.filter_sublist all
    refine (hsubav.map Rider.riderId).nodup ?_
    exact nodup_flatMap_query db precision hdb ghs (nodup_cons_get_neighbors center)

/-- A concrete interpretation of the transcendental primitives used by
witnesses (the theorems hold for every interpretation). -/
def samplePrims : MathPrims := ⟨id, id, id, fun _ _ => 0, id⟩

/-! ### Dispatch state machine

Status constants of `src/models/order.py`. -/

def STATUS_AWAITING_RIDER_ASSIGNMENT : String := "AWAITING_RIDER_ASSIGNMENT"

def OFFERED_TO_RIDER : String := "OFFERED_TO_RIDER"

def RIDER_ASSIGNED : String := "RIDER_ASSIGNED"

def PICKED_UP : String := "PICKED_UP"

def STATUS_OUT_FOR_DELIVERY : String := "OUT_FOR_DELIVERY"

def STATUS_DELIVERED : String := "DELIVERED"

def STATUS_CANCELLED : String := "CANCELLED"

/-- An order item (`src/models/order.py` / the orders DynamoDB item),
restricted to the fields the dispatch engine reads and writes.  `none`
models an absent attribute (`update_order` removes an attribute when passed
`None`); timestamps are abstract clock values. -/
structure Order where
  status : String
  riderId : Option String
  rejectedByRiders : List String
  deliveryOtp : Option String
  pickupOtp : Option String
  riderAssignedAt : Option ℕ
  offeredAt : Option ℕ
  riderAssignmentAttempts : ℕ
  lastAssignmentAttemptAt : Option ℕ
  pickupLat : Option ℚ
  pickupLng : Option ℚ
  riderCurrentLat : Option ℚ
  riderCurrentLng : Option ℚ
  riderSpeed : Option ℚ
  riderHeading : Option ℚ
  riderLocationUpdatedAt : Option ℕ
  riderPickupAt : Option ℕ
  riderDeliveredAt : Option ℕ
deriving Repr, DecidableEq

/-- The shared state one dispatch interaction touches: the order under
consideration (`none` when missing from the table) and the riders table. -/
structure World where
  orderId : String
  order : Option Order
  riders : List Rider
deriving Repr, DecidableEq

/-- Model of `RiderService.get_rider`: fetch a rider row by ID. -/
def getRider (riders : List Rider) (riderId : String) : Option Rider :=
  riders.find? (fun r => r.riderId = riderId)

/-- Model of `RiderService.set_working_on_order(rider_id, order_id | None)`: write
the rider's `workingOnOrder` attribute as the *string* `{'S': order_id}`
(`src/services/rider_service.py` line 216), or `REMOVE` it when clearing.
Note the type mismatch with `Rider.from_dynamodb_item`, which parses only
the List form: a rider marked busy this way deserializes with an empty
`working_on_order`. -/
def setWorkingOnOrder (riders : List Rider) (riderId : String)
    (orderId : Option String) : List Rider :=
  riders.map (fun r => if r.riderId = riderId then
    { r with workingOnOrder := match orderId with
        | some oid => WorkAttr.str oid
        | none => WorkAttr.absent }
    else r)

/-- The `radius_km` keyword argument passed to `find_available_riders_near`
by `OrderAssignmentService.assign_order_to_rider`
(`src/services/order_assignment_service.py`, line 44). -/
def assignSearchRadiusKm : ℚ := 10

/-- Model of `OrderAssignmentService.assign_order_to_rider(order_id, restaurant_lat,
restaurant_lng)` of `src/services/order_assignment_service.py`.  `otp1`/`otp2`
are the values the two `generate_delivery_otp()` draws would produce and
`now` the current timestamp.  When the order is missing, `update_order`
raises in every branch before any other state change and the surrounding
handler returns `None`, so the world is unchanged.  The SQS enqueue,
notifications and the EventBridge schedule have no effect on the modelled
state. -/
def assign_order_to_rider (M : MathPrims) (w : World) (restaurantLat restaurantLng : ℚ)
    (otp1 otp2 : String) (now : ℕ) : World × Option String :=
  match w.order with
  | none => (w, none)
  | some o =>
    let available := find_available_riders_near M w.riders restaurantLat restaurantLng
      assignSearchRadiusKm
    let rejected := o.rejectedByRiders
    let filtered := if rejected = [] then available
      else available.filter (fun rd => rd.1.riderId ∉ rejected)
    if available = [] then
      let attempts := o.riderAssignmentAttempts + 1
      ({ w with order := some ({ o with
                    status := STATUS_AWAITING_RIDER_ASSIGNMENT,
                    riderAssignmentAttempts := attempts,
                    lastAssignmentAttemptAt := some now }) }, none)
    else if filtered = [] then
      match available with
      | [] => (w, none)
      | (nearest, _d) :: _ =>
        let o2 := { o with
          riderId := some nearest.riderId,
          deliveryOtp := some otp1,
          pickupOtp := some otp2,
          riderAssignedAt := some now,
          status := RIDER_ASSIGNED,
          riderCurrentLat := nearest.lat,
          riderCurrentLng := nearest.lng,
          riderSpeed := nearest.speed,
          riderHeading := nearest.heading,
          riderLocationUpdatedAt := some now }
        ({ w with
            order := some o2,
            riders := setWorkingOnOrder w.riders nearest.riderId (some w.orderId) },
         some nearest.riderId)
    else
      match filtered with
      | [] => (w, none)
      | (nearest, _d) :: _ =>
        ({ w with order := some ({ o with
                      riderId := some nearest.riderId,
                      status := OFFERED_TO_RIDER,
                      offeredAt := some now }) }, some nearest.riderId)

/-- Model of `accept_order(rider_id, order_id, status)` of
`src/routes/rider_order_routes.py`: no status precondition is checked; the
order's status is set to the path's `status` parameter (`RIDER_ASSIGNED`
when it is falsy), the rider is marked busy, the assignment time stamped,
and the rider's location copied into the tracking snapshot when the order
has none.  The returned number is the HTTP status code. -/
def accept_order (w : World) (riderId statusParam : String) (now : ℕ) : World × ℕ :=
  match w.order with
  | none => (w, 404)
  | some o =>
    if o.riderId ≠ some riderId then (w, 403)
    else
      let newStatus := if statusParam = "" then RIDER_ASSIGNED else statusParam
      let o1 := { o with status := newStatus }
      let riders1 := setWorkingOnOrder w.riders riderId (some w.orderId)
      let o2 :=
        match getRider riders1 riderId with
        | some rr =>
          if rr.lat ≠ none ∧ rr.lng ≠ none ∧ (¬ qTruthy o.riderCurrentLat ∨ ¬ qTruthy o.riderCurrentLng) then
            { o1 with riderAssignedAt := some now,
                      riderCurrentLat := rr.lat,
                      riderCurrentLng := rr.lng,
                      riderSpeed := some (rr.speed.getD 0),
                      riderHeading := some (rr.heading.getD 0),
                      riderLocationUpdatedAt := some now }
          else { o1 with riderAssignedAt := some now }
        | none => { o1 with riderAssignedAt := some now }
      ({ w with order := some o2, riders := riders1 }, 200)

/-- Model of `reject_order(rider_id, order_id)` of `src/routes/rider_order_routes.py`.
`restaurantLookup` models `RestaurantService.get_restaurant_by_id`: the
restaurant's coordinates, or `none` when the restaurant is not found. -/
def reject_order (M : MathPrims) (w : World) (riderId _reason : String)
    (otp1 otp2 : String) (now : ℕ) (restaurantLookup : Option (ℚ × ℚ)) : World × ℕ :=
  match w.order with
  | none => (w, 404)
  | some o =>
    if o.riderId ≠ some riderId then (w, 403)
    else if o.status ≠ "OFFERED_TO_RIDER" then (w, 400)
    else
      let w1 := { w with order := some ({ o with
        riderId := none, status := STATUS_AWAITING_RIDER_ASSIGNMENT }) }
      let coords : Option (ℚ × ℚ) :=
        if o.pickupLat = none ∨ o.pickupLng = none then restaurantLookup
        else some (o.pickupLat.getD 0, o.pickupLng.getD 0)
      match coords with
      | some c => ((assign_order_to_rider M w1 c.1 c.2 otp1 otp2 now).1, 200)
      | none => (w1, 200)

/-- Python truthiness of an optional string: `None` and `""` are falsy. -/
def sTruthy : Option String → Bool
  | none => false
  | some s => decide (s ≠ "")

/-- Model of `lambda_handler` of `src/order_accept_reject_checker.py`
(`handleOfferTimeout(orderId, expectedRiderId)`).  The rider whose offer
lapsed has the order erased from its `workingOnOrder` list; a rider row
missing from the table is left as is. -/
def handle_offer_timeout (M : MathPrims) (w : World) (expectedRiderId : Option String)
    (otp1 otp2 : String) (now : ℕ) (restaurantLookup : Option (ℚ × ℚ)) : World :=
  match w.order with
  | none => w
  | some o =>
    if o.status = RIDER_ASSIGNED then w
    else if o.status = PICKED_UP ∨ o.status = STATUS_OUT_FOR_DELIVERY ∨
        o.status = STATUS_DELIVERED ∨ o.status = STATUS_CANCELLED then w
    else if sTruthy expectedRiderId ∧ sTruthy o.riderId ∧ o.riderId ≠ expectedRiderId then w
    else
      let rejected := o.rejectedByRiders
      let rejected2 :=
        match o.riderId with
        | some rid => if rid ≠ "" ∧ rid ∉ rejected then rejected ++ [rid] else rejected
        | none => rejected
      let riders1 :=
        match o.riderId with
        | some rid =>
          if rid ≠ "" then
            w.riders.map (fun r => if r.riderId = rid then
              { r with workingOnOrder :=
                  match r.workingOnOrder.parsed.erase w.orderId with
                  | [] => WorkAttr.absent
                  | l => WorkAttr.list l } else r)
          else w.riders
        | none => w.riders
      let w2 := { w with
        order := some ({ o with rejectedByRiders := rejected2, riderId := none,
                                status := STATUS_AWAITING_RIDER_ASSIGNMENT }),
        riders := riders1 }
      let coords : Option (ℚ × ℚ) :=
        if o.pickupLat = none ∨ o.pickupLng = none then restaurantLookup
        else some (o.pickupLat.getD 0, o.pickupLng.getD 0)
      match coords with
      | none => w2
      | some c => (assign_order_to_rider M w2 c.1 c.2 otp1 otp2 now).1

/-- Model of `update_order_status(rider_id, order_id)` of
`src/routes/rider_order_routes.py`: `OUT_FOR_DELIVERY` requires `PICKED_UP`,
`DELIVERED` requires `OUT_FOR_DELIVERY` (and clears the rider's
`workingOnOrder`); any other requested status is written unconditionally.
`riderId` is never written.  Earnings bookkeeping is outside the modelled
state. -/
def update_order_status_route (w : World) (riderId newStatus : String) (now : ℕ) :
    World × ℕ :=
  if newStatus = "" then (w, 400)
  else
    match w.order with
    | none => (w, 404)
    | some o =>
      if o.riderId ≠ some riderId then (w, 403)
      else if newStatus = STATUS_OUT_FOR_DELIVERY then
        if o.status ≠ PICKED_UP then (w, 400)
        else ({ w with order := some ({ o with
          riderPickupAt := some now, status := newStatus }) }, 200)
      else if newStatus = STATUS_DELIVERED then
        if o.status ≠ STATUS_OUT_FOR_DELIVERY then (w, 400)
        else ({ w with
          order := some ({ o with riderDeliveredAt := some now, status := newStatus }),
          riders := setWorkingOnOrder w.riders riderId none }, 200)
      else ({ w with order := some ({ o with status := newStatus }) }, 200)

theorem assign_rejected_unchanged (M : MathPrims) (w : World) (lat lng : ℚ)
    (otp1 otp2 : String) (now : ℕ) :
    ((assign_order_to_rider M w lat lng otp1 otp2 now).1.order.map Order.rejectedByRiders)
      = w.order.map Order.rejectedByRiders := by
  unfold assign_order_to_rider
  split
  · rfl
  · rename_i o ho
    dsimp only
    split_ifs <;> first | (split <;> simp [ho]) | simp [ho]

theorem queryRidersByGeohash_nil (gh : List Char) (p : ℕ) :
    queryRidersByGeohash [] gh p = [] := by
  unfold queryRidersByGeohash
  split
  · rfl
  · split <;> rfl

theorem find_available_riders_near_nil (M : MathPrims) (lat lng r : ℚ) :
    find_available_riders_near M [] lat lng r = [] := by
  unfold find_available_riders_near
  dsimp only
  rw [List.flatMap_eq_nil_iff.mpr (fun gh _ => queryRidersByGeohash_nil gh _)]
  simp

theorem assign_no_riders (M : MathPrims) (w : World) (o : Order) (a b : ℚ)
    (otp1 otp2 : String) (now : ℕ) (ho : w.order = some o) (hr : w.riders = []) :
    assign_order_to_rider M w a b otp1 otp2 now =
      ({ w with order := some ({ o with
          status := STATUS_AWAITING_RIDER_ASSIGNMENT,
          riderAssignmentAttempts := o.riderAssignmentAttempts + 1,
          lastAssignmentAttemptAt := some now }) }, none) := by
  unfold assign_order_to_rider
  rw [ho]
  dsimp only
  rw [hr, find_available_riders_near_nil]
  rw [if_pos rfl]

/-- Sample worlds used by concrete counterexamples and witnesses. -/
def order0 : Order :=
  { status := "AWAITING_RIDER_ASSIGNMENT", riderId := none, rejectedByRiders := [],
    deliveryOtp := none, pickupOtp := none, riderAssignedAt := none, offeredAt := none,
    riderAssignmentAttempts := 0, lastAssignmentAttemptAt := none,
    pickupLat := some 1, pickupLng := some 1,
    riderCurrentLat := none, riderCurrentLng := none, riderSpeed := none,
    riderHeading := none, riderLocationUpdatedAt := none,
    riderPickupAt := none, riderDeliveredAt := none }

/-- A rider at `(1, 1)` with the stored precision-7 geohash of that point. -/
def rider0 : Rider :=
  { riderId := "r1", phone := "p1", lat := some 1, lng := some 1,
    speed := some 0, heading := some 0, isActive := true,
    workingOnOrder := WorkAttr.absent, geohash := some (encodeChars 1 1 7) }

/-- An order currently offered to rider `r1`. -/
def c1Order : Order := { order0 with status := "OFFERED_TO_RIDER", riderId := some "r1" }

/-- World with an order currently offered to rider `r1` and no riders online. -/
def c1World : World := { orderId := "o1", order := some c1Order, riders := [] }

/-- C1 counterexample: rider `r1` validly rejects its offered order, the call
succeeds (HTTP 200), yet `r1` is not added to `rejectedByRiders` — the set is
still empty afterwards, contradicting the claim that `reject` adds the
rejecting rider to it. -/
theorem C1_counterexample_reject_does_not_record_rider :
    (reject_order samplePrims c1World "r1" "busy" "1111" "2222" 100 none).2 = 200 ∧
      ((reject_order samplePrims c1World "r1" "busy" "1111" "2222" 100 none).1.order.map
        Order.rejectedByRiders) = some [] := by
  have hre : reject_order samplePrims c1World "r1" "busy" "1111" "2222" 100 none =
      ({ orderId := "o1",
         order := some ({ c1Order with
           riderId := none, status := STATUS_AWAITING_RIDER_ASSIGNMENT,
           riderAssignmentAttempts := 1, lastAssignmentAttemptAt := some 100 }),
         riders := [] }, 200) := by
    unfold reject_order c1World
    dsimp only
    rw [if_neg (by decide), if_neg (by decide), if_neg (by decide)]
    dsimp only
    rw [assign_no_riders samplePrims _
      ({ c1Order with riderId := none, status := STATUS_AWAITING_RIDER_ASSIGNMENT })
      _ _ "1111" "2222" 100 rfl rfl]
    rfl
  rw [hre]
  exact ⟨rfl, rfl⟩

/-- C1 (amended): for an order whose status is `OFFERED_TO_RIDER` and whose
`riderId` equals the calling rider, `reject` clears `riderId`, sets status
`AWAITING_RIDER_ASSIGNMENT`, and immediately re-invokes `assign` with the
order's pickup coordinates — but it does **not** add the rider to
`rejectedByRiders`, which is left unchanged. -/
theorem C1_reject_clears_and_reassigns (M : MathPrims) (w : World) (o : Order)
    (rid reason otp1 otp2 : String) (now : ℕ) (rc : Option (ℚ × ℚ)) (a b : ℚ)
    (ho : w.order = some o) (hrid : o.riderId = some rid)
    (hst : o.status = "OFFERED_TO_RIDER")
    (hla : o.pickupLat = some a) (hlb : o.pickupLng = some b) :
    reject_order M w rid reason otp1 otp2 now rc =
      ((assign_order_to_rider M
        { w with order := some ({ o with
            riderId := none, status := STATUS_AWAITING_RIDER_ASSIGNMENT }) }
        a b otp1 otp2 now).1, 200) ∧
      ((reject_order M w rid reason otp1 otp2 now rc).1.order.map Order.rejectedByRiders)
        = some o.rejectedByRiders := by
  have hmain : reject_order M w rid reason otp1 otp2 now rc =
      ((assign_order_to_rider M
        { w with order := some ({ o with
            riderId := none, status := STATUS_AWAITING_RIDER_ASSIGNMENT }) }
        a b otp1 otp2 now).1, 200) := by
    unfold reject_order
    rw [ho]
    dsimp only
    rw [if_neg (by rw [hrid]; exact fun h => h rfl)]
    rw [if_neg (by rw [hst]; exact fun h => h rfl)]
    rw [if_neg (by rw [hla, hlb]; rintro (h | h) <;> exact Option.some_ne_none _ h)]
    rw [hla, hlb]
    rfl
  refine ⟨hmain, ?_⟩
  rw [hmain]
  rw [show (((assign_order_to_rider M
      { w with order := some ({ o with
          riderId := none, status := STATUS_AWAITING_RIDER_ASSIGNMENT }) }
      a b otp1 otp2 now).1, 200) : World × ℕ).1 = (assign_order_to_rider M
      { w with order := some ({ o with
          riderId := none, status := STATUS_AWAITING_RIDER_ASSIGNMENT }) }
      a b otp1 otp2 now).1 from rfl]
  rw [assign_rejected_unchanged]
  rfl

/-- Witness for C1 (amended) at the concrete world `c1World`. -/
theorem C1_reject_clears_and_reassigns_witness :
    c1World.order = some c1Order ∧ c1Order.riderId = some "r1" ∧
      c1Order.status = "OFFERED_TO_RIDER" ∧
      c1Order.pickupLat = some 1 ∧ c1Order.pickupLng = some 1 ∧
      (reject_order samplePrims c1World "r1" "busy" "1111" "2222" 100 none =
        ((assign_order_to_rider samplePrims
          { c1World with order := some ({ c1Order with
              riderId := none, status := STATUS_AWAITING_RIDER_ASSIGNMENT }) }
          1 1 "1111" "2222" 100).1, 200) ∧
        ((reject_order samplePrims c1World "r1" "busy" "1111" "2222" 100 none).1.order.map
          Order.rejectedByRiders) = some c1Order.rejectedByRiders) :=
  ⟨rfl, rfl, rfl, rfl, rfl,
    C1_reject_clears_and_reassigns samplePrims c1World c1Order "r1" "busy" "1111" "2222"
      100 none 1 1 rfl rfl rfl rfl rfl⟩

/-- An order already delivered, still referencing rider `r1`. -/
def c2Order : Order := { order0 with status := "DELIVERED", riderId := some "r1" }

/-- World with a delivered order and no riders online. -/
def c2World : World := { orderId := "o1", order := some c2Order, riders := [] }

/-- C2 counterexample: the order is in status `DELIVERED` (not
`OFFERED_TO_RIDER`), yet `accept` by the matching rider succeeds with HTTP
200 and changes the order's status — and no delivery or pickup OTP is
generated in the process, contradicting both the wrong-status-is-an-error
part and the OTP-generation part of the claim. -/
theorem C2_counterexample_accept_in_delivered_status :
    c2World.order.map Order.status = some "DELIVERED" ∧
      (accept_order c2World "r1" "RIDER_ASSIGNED" 100).2 = 200 ∧
      ((accept_order c2World "r1" "RIDER_ASSIGNED" 100).1.order.map Order.status)
        = some "RIDER_ASSIGNED" ∧
      ((accept_order c2World "r1" "RIDER_ASSIGNED" 100).1.order.map Order.deliveryOtp)
        = some none ∧
      ((accept_order c2World "r1" "RIDER_ASSIGNED" 100).1.order.map Order.pickupOtp)
        = some none := by decide

/-- C2 (amended): `accept` succeeds whenever the order exists and `riderId`
matches the caller, with **no** check of the order's status; it sets the
status to the request's path `status` parameter (`RIDER_ASSIGNED` when that
is empty), marks the rider busy, stamps the assignment time, and generates
no OTPs (`deliveryOtp`/`pickupOtp` are left unchanged).  A wrong rider is
answered with client error 403 and leaves the state unchanged. -/
theorem C2_accept_behaviour (w : World) (o : Order) (rid st : String) (now : ℕ)
    (ho : w.order = some o) :
    (o.riderId ≠ some rid → accept_order w rid st now = (w, 403)) ∧
    (o.riderId = some rid →
      (accept_order w rid st now).2 = 200 ∧
      ((accept_order w rid st now).1.order.map Order.status)
        = some (if st = "" then RIDER_ASSIGNED else st) ∧
      ((accept_order w rid st now).1.order.map Order.riderId) = some (some rid) ∧
      ((accept_order w rid st now).1.order.map Order.riderAssignedAt) = some (some now) ∧
      ((accept_order w rid st now).1.order.map Order.deliveryOtp) = some o.deliveryOtp ∧
      ((accept_order w rid st now).1.order.map Order.pickupOtp) = some o.pickupOtp ∧
      (accept_order w rid st now).1.riders = setWorkingOnOrder w.riders rid (some w.orderId)) := by
  unfold accept_order
  rw [ho]
  dsimp only
  constructor
  · intro hne
    rw [if_pos hne]
  · intro heq
    rw [if_neg (by simp [heq])]
    dsimp only
    split <;> split_ifs <;> exact ⟨rfl, rfl, by simp [heq], rfl, rfl, rfl, rfl⟩

/-- Witness for C2 (amended) at the concrete world `c2World`. -/
theorem C2_accept_behaviour_witness :
    c2World.order = some c2Order ∧
      ((c2Order.riderId ≠ some "r1" →
          accept_order c2World "r1" "RIDER_ASSIGNED" 100 = (c2World, 403)) ∧
        (c2Order.riderId = some "r1" →
          (accept_order c2World "r1" "RIDER_ASSIGNED" 100).2 = 200 ∧
          ((accept_order c2World "r1" "RIDER_ASSIGNED" 100).1.order.map Order.status)
            = some (if ("RIDER_ASSIGNED" : String) = "" then RIDER_ASSIGNED
              else "RIDER_ASSIGNED") ∧
          ((accept_order c2World "r1" "RIDER_ASSIGNED" 100).1.order.map Order.riderId)
            = some (some "r1") ∧
          ((accept_order c2World "r1" "RIDER_ASSIGNED" 100).1.order.map
            Order.riderAssignedAt) = some (some 100) ∧
          ((accept_order c2World "r1" "RIDER_ASSIGNED" 100).1.order.map Order.deliveryOtp)
            = some c2Order.deliveryOtp ∧
          ((accept_order c2World "r1" "RIDER_ASSIGNED" 100).1.order.map Order.pickupOtp)
            = some c2Order.pickupOtp ∧
          (accept_order c2World "r1" "RIDER_ASSIGNED" 100).1.riders
            = setWorkingOnOrder c2World.riders "r1" (some c2World.orderId))) :=
  ⟨rfl, C2_accept_behaviour c2World c2Order "r1" "RIDER_ASSIGNED" 100 rfl⟩

/-- World with an order awaiting rider assignment (no rider currently set)
and no riders online. -/
def c3World : World := { orderId := "o1", order := some order0, riders := [] }

/-- C3 counterexample: `handleOfferTimeout` is called with an expected rider
`rX` while the order currently has **no** `riderId` set — the claim says this
mismatch makes the call a no-op, but the handler proceeds with the rejection
path and re-invokes `assign`, which increments `riderAssignmentAttempts` and
stamps `lastAssignmentAttemptAt`: the state changes. -/
theorem C3_counterexample_timeout_without_rider_not_inert :
    (c3World.order.map Order.riderAssignmentAttempts) = some 0 ∧
      ((handle_offer_timeout samplePrims c3World (some "rX") "1111" "2222" 100 none).order.map
        Order.riderAssignmentAttempts) = some 1 ∧
      handle_offer_timeout samplePrims c3World (some "rX") "1111" "2222" 100 none ≠ c3World := by
  have hto : handle_offer_timeout samplePrims c3World (some "rX") "1111" "2222" 100 none =
      { orderId := "o1",
        order := some ({ order0 with
          riderAssignmentAttempts := 1, lastAssignmentAttemptAt := some 100 }),
        riders := [] } := by
    unfold handle_offer_timeout c3World
    dsimp only
    rw [if_neg (by decide), if_neg (by decide), if_neg (by decide)]
    rw [show order0.riderId = none from rfl]
    dsimp only
    rw [if_neg (by decide)]
    dsimp only
    rw [assign_no_riders samplePrims _
      ({ order0 with
          rejectedByRiders := order0.rejectedByRiders, riderId := none,
          status := STATUS_AWAITING_RIDER_ASSIGNMENT })
      _ _ "1111" "2222" 100 rfl rfl]
    rfl
  rw [hto]
  exact ⟨rfl, rfl, by decide⟩

/-- C3 (amended): `handleOfferTimeout` is a no-op when the order is missing,
already `RIDER_ASSIGNED`, in a later/terminal status (`PICKED_UP`,
`OUT_FOR_DELIVERY`, `DELIVERED`, `CANCELLED`), or when **both** the expected
rider ID and the order's current `riderId` are set (truthy) and differ.  When
the order has no current `riderId`, the handler is *not* a no-op: it proceeds
with the rejection path. -/
theorem C3_timeout_noop_conditions (M : MathPrims) (w : World) (er : Option String)
    (otp1 otp2 : String) (now : ℕ) (rc : Option (ℚ × ℚ)) :
    (w.order = none → handle_offer_timeout M w er otp1 otp2 now rc = w) ∧
    (∀ o, w.order = some o →
      (o.status = RIDER_ASSIGNED ∨ o.status = PICKED_UP ∨
        o.status = STATUS_OUT_FOR_DELIVERY ∨ o.status = STATUS_DELIVERED ∨
        o.status = STATUS_CANCELLED ∨
        (sTruthy er = true ∧ sTruthy o.riderId = true ∧ o.riderId ≠ er)) →
      handle_offer_timeout M w er otp1 otp2 now rc = w) := by
  constructor
  · intro h
    unfold handle_offer_timeout
    rw [h]
  · intro o ho hcase
    unfold handle_offer_timeout
    rw [ho]
    dsimp only
    by_cases h1 : o.status = RIDER_ASSIGNED
    · rw [if_pos h1]
    · rw [if_neg h1]
      by_cases h2 : o.status = PICKED_UP ∨ o.status = STATUS_OUT_FOR_DELIVERY ∨
          o.status = STATUS_DELIVERED ∨ o.status = STATUS_CANCELLED
      · rw [if_pos h2]
      · rw [if_neg h2]
        have h3 : sTruthy er = true ∧ sTruthy o.riderId = true ∧ o.riderId ≠ er := by
          rcases hcase with h | h | h | h | h | h
          · exact absurd h h1
          · exact absurd (Or.inl h) h2
          · exact absurd (Or.inr (Or.inl h)) h2
          · exact absurd (Or.inr (Or.inr (Or.inl h))) h2
          · exact absurd (Or.inr (Or.inr (Or.inr h))) h2
          · exact h
        rw [if_pos h3]

/-- Witness for C3 (amended): a stale schedule — the order is offered to `r1`
but the scheduled check carries expected rider `rX`; the call leaves the
world unchanged. -/
theorem C3_timeout_noop_conditions_witness :
    c1World.order = some c1Order ∧
      (c1Order.status = RIDER_ASSIGNED ∨ c1Order.status = PICKED_UP ∨
        c1Order.status = STATUS_OUT_FOR_DELIVERY ∨ c1Order.status = STATUS_DELIVERED ∨
        c1Order.status = STATUS_CANCELLED ∨
        (sTruthy (some "rX") = true ∧ sTruthy c1Order.riderId = true ∧
          c1Order.riderId ≠ some "rX")) ∧
      handle_offer_timeout samplePrims c1World (some "rX") "1111" "2222" 100 none = c1World :=
  ⟨rfl, Or.inr (Or.inr (Or.inr (Or.inr (Or.inr (by decide))))),
    (C3_timeout_noop_conditions samplePrims c1World (some "rX") "1111" "2222" 100 none).2
      c1Order rfl (Or.inr (Or.inr (Or.inr (Or.inr (Or.inr (by decide))))))⟩

/-- The candidate list `available_riders` computed by `assign_order_to_rider`:
the registry query around the pickup point at the radius the code passes. -/
def assignCandidates (M : MathPrims) (w : World) (lat lng : ℚ) : List (Rider × ℚ) :=
  find_available_riders_near M w.riders lat lng assignSearchRadiusKm

/-- The `filtered_riders` list of `assign_order_to_rider`: candidates minus
the order's `rejectedByRiders` (the filter is applied only when the rejected
set is nonempty, exactly as in the source). -/
def assignFiltered (M : MathPrims) (w : World) (o : Order) (lat lng : ℚ) :
    List (Rider × ℚ) :=
  if o.rejectedByRiders = [] then assignCandidates M w lat lng
  else (assignCandidates M w lat lng).filter (fun rd => rd.1.riderId ∉ o.rejectedByRiders)

/-- C6: `assign` never writes a rejected rider into `riderId` except through
the direct-assign fallback: (a) the fallback fires exactly when candidates
exist but every candidate is in `rejectedByRiders`; (b) with no candidates,
`riderId` is untouched; (c) in the offer branch the offered rider is the
head of the filtered list and is not in `rejectedByRiders`; (d) the fallback
sets `riderId` to the nearest (head) candidate, status `RIDER_ASSIGNED`,
both OTPs, copies the rider's position/speed/heading into the tracking
snapshot, marks the rider busy, and performs no offer step (`offeredAt` is
untouched). -/
theorem C6_assign_no_repeat_offers (M : MathPrims) (w : World) (o : Order)
    (lat lng : ℚ) (otp1 otp2 : String) (now : ℕ) (ho : w.order = some o) :
    ((assignCandidates M w lat lng ≠ [] ∧ assignFiltered M w o lat lng = []) ↔
      (assignCandidates M w lat lng ≠ [] ∧
        ∀ rd ∈ assignCandidates M w lat lng, rd.1.riderId ∈ o.rejectedByRiders)) ∧
    (assignCandidates M w lat lng = [] →
      ((assign_order_to_rider M w lat lng otp1 otp2 now).1.order.map Order.riderId)
        = some o.riderId) ∧
    (∀ r d rest, assignFiltered M w o lat lng = (r, d) :: rest →
      ((assign_order_to_rider M w lat lng otp1 otp2 now).1.order.map Order.riderId)
        = some (some r.riderId) ∧
      r.riderId ∉ o.rejectedByRiders ∧
      ((assign_order_to_rider M w lat lng otp1 otp2 now).1.order.map Order.status)
        = some OFFERED_TO_RIDER) ∧
    (∀ r d rest, assignCandidates M w lat lng = (r, d) :: rest →
      assignFiltered M w o lat lng = [] →
      assign_order_to_rider M w lat lng otp1 otp2 now =
        ({ w with
            order := some ({ o with
              riderId := some r.riderId, deliveryOtp := some otp1,
              pickupOtp := some otp2, riderAssignedAt := some now,
              status := RIDER_ASSIGNED, riderCurrentLat := r.lat,
              riderCurrentLng := r.lng, riderSpeed := r.speed,
              riderHeading := r.heading, riderLocationUpdatedAt := some now }),
            riders := setWorkingOnOrder w.riders r.riderId (some w.orderId) },
          some r.riderId)) := by
  refine ⟨?_, ?_, ?_, ?_⟩
  · constructor
    · rintro ⟨hne, hnil⟩
      refine ⟨hne, fun rd hrd => ?_⟩
      unfold assignFiltered at hnil
      split_ifs at hnil with hrej
      · exact absurd hnil hne
      · have := List.filter_eq_nil_iff.mp hnil rd hrd
        simpa using this
    · rintro ⟨hne, hall⟩
      refine ⟨hne, ?_⟩
      unfold assignFiltered
      split_ifs with hrej
      · obtain ⟨rd, hrd⟩ := List.exists_mem_of_ne_nil _ hne
        have := hall rd hrd
        rw [hrej] at this
        exact absurd this (List.not_mem_nil _)
      · exact List.filter_eq_nil_iff.mpr (fun rd hrd => by simpa using hall rd hrd)
  · intro hc
    unfold assignCandidates at hc
    unfold assign_order_to_rider
    rw [ho]
    dsimp only
    rw [if_pos hc]
    rfl
  · intro r d rest hf
    have hc : assignCandidates M w lat lng ≠ [] := by
      intro hnil
      unfold assignFiltered at hf
      rw [hnil] at hf
      split_ifs at hf
      all_goals simp at hf
    have hmem : (r, d) ∈ assignFiltered M w o lat lng := by
      rw [hf]; exact List.mem_cons_self _ _
    have hnotrej : r.riderId ∉ o.rejectedByRiders := by
      unfold assignFiltered at hmem
      split_ifs at hmem with hrej
      · rw [hrej]
        exact List.not_mem_nil _
      · have := List.of_mem_filter hmem
        simpa using this
    unfold assignFiltered assignCandidates at hf
    unfold assignCandidates at hc
    unfold assign_order_to_rider
    rw [ho]
    dsimp only
    rw [if_neg hc, if_neg (by rw [hf]; exact List.cons_ne_nil _ _), hf]
    exact ⟨rfl, hnotrej, rfl⟩
  · intro r d rest hc hf
    unfold assignFiltered assignCandidates at hf
    unfold assignCandidates at hc
    unfold assign_order_to_rider
    rw [ho]
    dsimp only
    rw [if_neg (by rw [hc]; exact List.cons_ne_nil _ _), if_pos hf, hc]

/-- Witness for C6 at the concrete world `c1World` (no riders online, so the
no-candidate branch applies). -/
theorem C6_assign_no_repeat_offers_witness :
    c1World.order = some c1Order ∧
      ((assignCandidates samplePrims c1World 1 1 ≠ [] ∧
          assignFiltered samplePrims c1World c1Order 1 1 = []) ↔
        (assignCandidates samplePrims c1World 1 1 ≠ [] ∧
          ∀ rd ∈ assignCandidates samplePrims c1World 1 1,
            rd.1.riderId ∈ c1Order.rejectedByRiders)) ∧
      (assignCandidates samplePrims c1World 1 1 = [] →
        ((assign_order_to_rider samplePrims c1World 1 1 "1111" "2222" 100).1.order.map
          Order.riderId) = some c1Order.riderId) ∧
      (∀ r d rest, assignFiltered samplePrims c1World c1Order 1 1 = (r, d) :: rest →
        ((assign_order_to_rider samplePrims c1World 1 1 "1111" "2222" 100).1.order.map
          Order.riderId) = some (some r.riderId) ∧
        r.riderId ∉ c1Order.rejectedByRiders ∧
        ((assign_order_to_rider samplePrims c1World 1 1 "1111" "2222" 100).1.order.map
          Order.status) = some OFFERED_TO_RIDER) ∧
      (∀ r d rest, assignCandidates samplePrims c1World 1 1 = (r, d) :: rest →
        assignFiltered samplePrims c1World c1Order 1 1 = [] →
        assign_order_to_rider samplePrims c1World 1 1 "1111" "2222" 100 =
          ({ c1World with
              order := some ({ c1Order with
                riderId := some r.riderId, deliveryOtp := some "1111",
                pickupOtp := some "2222", riderAssignedAt := some 100,
                status := RIDER_ASSIGNED, riderCurrentLat := r.lat,
                riderCurrentLng := r.lng, riderSpeed := r.speed,
                riderHeading := r.heading, riderLocationUpdatedAt := some 100 }),
              riders := setWorkingOnOrder c1World.riders r.riderId (some c1World.orderId) },
            some r.riderId)) :=
  ⟨rfl, C6_assign_no_repeat_offers samplePrims c1World c1Order 1 1 "1111" "2222" 100 rfl⟩

theorem ne_of_mem_get_neighbors {gh h : List Char} (hm : h ∈ get_neighbors gh) :
    h ≠ gh := by
  rw [show get_neighbors gh = neighborOffsets.foldl
    (fun acc off => neighborStep gh acc
      (encodeChars ((decode gh).1 + off.1) ((decode gh).2 + off.2) gh.length)) [] from rfl]
    at hm
  rcases (mem_neighborFold gh
    (fun off => encodeChars ((decode gh).1 + off.1) ((decode gh).2 + off.2) gh.length)
    neighborOffsets [] h).mp hm with hmem | ⟨hne, _⟩
  · exact absurd hmem (List.not_mem_nil h)
  · exact hne

/-- Evaluation of the registry query around `(1, 1)` at the 10 km radius the
assignment service uses, over a single-rider table: the rider's stored
precision-7 geohash truncates to the precision-4 center cell (prefix
consistency), the eight neighbor cells contain no rider, and the rider is
kept iff its haversine distance is within the radius. -/
theorem find_rider0_gen (M : MathPrims) (wa : WorkAttr) (hwa : wa.parsed = []) :
    find_available_riders_near M [{ rider0 with workingOnOrder := wa }] 1 1 10 =
      if calculate_distance M 1 1 1 1 ≤ 10
        then [({ rider0 with workingOnOrder := wa }, calculate_distance M 1 1 1 1)]
        else [] := by
  have hp : get_precision_for_radius 10 = 4 := by
    unfold get_precision_for_radius
    rw [if_neg (by norm_num), if_neg (by norm_num), if_neg (by norm_num), if_pos (by norm_num)]
  have hpre : (encodeChars 1 1 7).take 4 = encodeChars 1 1 4 :=
    encodeChars_take 1 1 (by norm_num)
  have hq : queryRidersByGeohash [{ rider0 with workingOnOrder := wa }]
      (encodeChars 1 1 4) 4 = [{ rider0 with workingOnOrder := wa }] := by
    unfold queryRidersByGeohash
    rw [if_neg (by norm_num), if_pos (by norm_num)]
    rw [List.filter_cons, if_pos (by simp [rider0, hpre])]
    rfl
  have hq2 : ∀ gh ∈ get_neighbors (encodeChars 1 1 4),
      queryRidersByGeohash [{ rider0 with workingOnOrder := wa }] gh 4 = [] := by
    intro gh hgh
    unfold queryRidersByGeohash
    rw [if_neg (by norm_num), if_pos (by norm_num)]
    rw [List.filter_cons, if_neg ?hpred]
    · rfl
    case hpred =>
      simp only [rider0, decide_eq_true_eq]
      intro hcontra
      have hgh4 : (encodeChars 1 1 7).take 4 = gh := by simpa using hcontra
      exact ne_of_mem_get_neighbors hgh (by rw [← hgh4, hpre])
  unfold find_available_riders_near
  dsimp only
  rw [hp]
  rw [List.flatMap_cons, hq, List.flatMap_eq_nil_iff.mpr hq2, List.append_nil]
  rw [List.filter_cons, if_pos (by simp [rider0, hwa, qTruthy])]
  rw [List.filter_nil, List.map_cons, List.map_nil, List.filter_cons, List.filter_nil]
  rw [show (({ rider0 with workingOnOrder := wa } : Rider).lat.getD 0) = 1 from rfl,
    show (({ rider0 with workingOnOrder := wa } : Rider).lng.getD 0) = 1 from rfl]
  by_cases hd : calculate_distance M 1 1 1 1 ≤ 10
  · rw [if_pos (by simpa using hd), if_pos hd]
    exact List.mergeSort_singleton _
  · rw [if_neg (by simpa using hd), if_neg hd]
    exact List.mergeSort_nil

theorem find_rider0 (M : MathPrims) :
    find_available_riders_near M [rider0] 1 1 10 =
      if calculate_distance M 1 1 1 1 ≤ 10
        then [(rider0, calculate_distance M 1 1 1 1)] else [] :=
  find_rider0_gen M WorkAttr.absent rfl

/-- C5: busy riders are returned by the query — the eligibility filter is
defeated by a serialization bug.  Marking rider `r1` busy through
`set_working_on_order` stores `workingOnOrder` as a *string* attribute,
which `Rider.from_dynamodb_item` (parsing only the List form) deserializes
to the empty list; consequently `find_available_riders_near` returns `r1`
even though `r1` currently holds order `o1`, contradicting the claim that a
returned rider has no current order. -/
theorem C5_busy_rider_still_returned :
    setWorkingOnOrder [rider0] "r1" (some "o1") =
      [{ rider0 with workingOnOrder := WorkAttr.str "o1" }] ∧
      ({ rider0 with workingOnOrder := WorkAttr.str "o1" } : Rider).workingOnOrder
        = WorkAttr.str "o1" ∧
      ({ rider0 with workingOnOrder := WorkAttr.str "o1" } : Rider).workingOnOrder.parsed
        = [] ∧
      (find_available_riders_near samplePrims
        [{ rider0 with workingOnOrder := WorkAttr.str "o1" }] 1 1 10).map
        (fun p => p.1.riderId) = ["r1"] := by
  refine ⟨rfl, rfl, rfl, ?_⟩
  rw [find_rider0_gen samplePrims (WorkAttr.str "o1") rfl,
    if_pos (by unfold calculate_distance samplePrims; norm_num)]
  rfl

/-- Evaluation of `assign` over the single-rider world: with an empty
`rejectedByRiders` set the nearest (only) candidate is offered the order. -/
theorem assign_offer_rider0 (M : MathPrims) (o : Order) (otp1 otp2 : String) (now : ℕ)
    (hrej : o.rejectedByRiders = []) (hd : calculate_distance M 1 1 1 1 ≤ 10) :
    assign_order_to_rider M { orderId := "o1", order := some o, riders := [rider0] }
      1 1 otp1 otp2 now =
      ({ orderId := "o1",
         order := some ({ o with
           riderId := some "r1", status := OFFERED_TO_RIDER, offeredAt := some now }),
         riders := [rider0] }, some "r1") := by
  have hfind : find_available_riders_near M [rider0] 1 1 assignSearchRadiusKm
      = [(rider0, calculate_distance M 1 1 1 1)] := by
    rw [show assignSearchRadiusKm = 10 from rfl, find_rider0, if_pos hd]
  unfold assign_order_to_rider
  dsimp only
  rw [hfind, hrej]
  rw [if_pos rfl]
  rw [if_neg (List.cons_ne_nil _ _), if_neg (List.cons_ne_nil _ _)]
  rfl

/-- Math primitives under which the haversine formula yields exactly 7 km
between any two points (`atan2` interpreted as the constant `7/12742`). -/
def c7Prims : MathPrims := ⟨id, id, id, fun _ _ => 7/12742, id⟩

/-- World with one order awaiting assignment and the single rider `r1`. -/
def c7World : World := { orderId := "o1", order := some order0, riders := [rider0] }

/-- C7: the code queries the Rider Registry with `radius_km=10`, not the 5 km
the specification states: the constant passed by `assign_order_to_rider` is
10, and concretely a rider whose haversine distance from the pickup point is
7 km (beyond the specified 5 km default) is returned by the query `assign`
performs and is offered the order. -/
theorem C7_assign_queries_radius_10km_not_5 :
    assignSearchRadiusKm = 10 ∧ assignSearchRadiusKm ≠ 5 ∧
      calculate_distance c7Prims 1 1 1 1 = 7 ∧ ¬ ((7 : ℚ) ≤ 5) ∧
      (find_available_riders_near c7Prims [rider0] 1 1 assignSearchRadiusKm).map
        (fun p => (p.1.riderId, p.2)) = [("r1", 7)] ∧
      ((assign_order_to_rider c7Prims c7World 1 1 "1111" "2222" 100).1.order.map
        Order.riderId) = some (some "r1") := by
  have hd : calculate_distance c7Prims 1 1 1 1 = 7 := by
    unfold calculate_distance c7Prims
    norm_num
  refine ⟨rfl, by norm_num [assignSearchRadiusKm], hd, by norm_num, ?_, ?_⟩
  · rw [show assignSearchRadiusKm = 10 from rfl, find_rider0, if_pos (by rw [hd]; norm_num)]
    rw [hd]
    rfl
  · rw [show c7World = { orderId := "o1", order := some order0, riders := [rider0] } from rfl]
    rw [assign_offer_rider0 c7Prims order0 "1111" "2222" 100 rfl (by rw [hd]; norm_num)]
    rfl

/-- Invariant: `riderId` is set whenever the order's status is one of the
rider-held statuses `OFFERED_TO_RIDER`, `RIDER_ASSIGNED`, `PICKED_UP`,
`OUT_FOR_DELIVERY`. -/
def HeldStatusImpliesRider (w : World) : Prop :=
  ∀ o, w.order = some o →
    (o.status = OFFERED_TO_RIDER ∨ o.status = RIDER_ASSIGNED ∨
      o.status = PICKED_UP ∨ o.status = STATUS_OUT_FOR_DELIVERY) →
    o.riderId ≠ none

/-- The dispatch transition system: a world is reachable when obtained from a
freshly created order — no rider yet, and not yet in any rider-held status
(`OFFERED_TO_RIDER`, `RIDER_ASSIGNED`, `PICKED_UP`, `OUT_FOR_DELIVERY`,
which only the dispatch/rider flows write) — by any sequence of dispatch
operations; `riderEnv` lets the rider registry change arbitrarily between
dispatch steps (location pings, availability toggles, other orders
completing). -/
inductive Reachable (M : MathPrims) : World → Prop where
  | init (w : World)
      (h : match w.order with
        | some o => o.riderId = none ∧ o.status ≠ OFFERED_TO_RIDER ∧
            o.status ≠ RIDER_ASSIGNED ∧ o.status ≠ PICKED_UP ∧
            o.status ≠ STATUS_OUT_FOR_DELIVERY
        | none => True) : Reachable M w
  | assign (w : World) (lat lng : ℚ) (otp1 otp2 : String) (now : ℕ)
      (hw : Reachable M w) :
      Reachable M (assign_order_to_rider M w lat lng otp1 otp2 now).1
  | accept (w : World) (rid st : String) (now : ℕ) (hw : Reachable M w) :
      Reachable M (accept_order w rid st now).1
  | reject (w : World) (rid reason otp1 otp2 : String) (now : ℕ)
      (rc : Option (ℚ × ℚ)) (hw : Reachable M w) :
      Reachable M (reject_order M w rid reason otp1 otp2 now rc).1
  | timeout (w : World) (er : Option String) (otp1 otp2 : String) (now : ℕ)
      (rc : Option (ℚ × ℚ)) (hw : Reachable M w) :
      Reachable M (handle_offer_timeout M w er otp1 otp2 now rc)
  | updateStatus (w : World) (rid st : String) (now : ℕ) (hw : Reachable M w) :
      Reachable M (update_order_status_route w rid st now).1
  | riderEnv (w : World) (rs : List Rider) (hw : Reachable M w) :
      Reachable M { w with riders := rs }

theorem assign_preserves_heldInv (M : MathPrims) (w : World) (lat lng : ℚ)
    (otp1 otp2 : String) (now : ℕ) :
    HeldStatusImpliesRider (assign_order_to_rider M w lat lng otp1 otp2 now).1 := by
  intro o' ho' hst
  unfold assign_order_to_rider at ho'
  split at ho'
  · rename_i hnone
    dsimp only at ho'
    rw [hnone] at ho'
    exact Option.noConfusion ho'
  · rename_i o ho
    dsimp only at ho'
    split_ifs at ho' <;>
      first
        | (dsimp only at ho'
           cases ho'
           exact absurd hst
             (show ¬(STATUS_AWAITING_RIDER_ASSIGNMENT = OFFERED_TO_RIDER ∨
                  STATUS_AWAITING_RIDER_ASSIGNMENT = RIDER_ASSIGNED ∨
                  STATUS_AWAITING_RIDER_ASSIGNMENT = PICKED_UP ∨
                  STATUS_AWAITING_RIDER_ASSIGNMENT = STATUS_OUT_FOR_DELIVERY) from by decide))
        | (split at ho' <;>
            first
              | (dsimp only at ho'
                 cases ho'
                 exact fun hnone => Option.noConfusion hnone)
              | (rename_i hcontra
                 exact absurd hcontra (by assumption)))

theorem accept_preserves_heldInv (w : World) (rid st : String) (now : ℕ)
    (hw : HeldStatusImpliesRider w) :
    HeldStatusImpliesRider (accept_order w rid st now).1 := by
  intro o' ho' hst
  unfold accept_order at ho'
  split at ho'
  · exact hw o' ho' hst
  · rename_i o ho
    dsimp only at ho'
    split_ifs at ho' <;>
      first
        | exact hw o' ho' hst
        | (split at ho' <;>
            first
              | (split_ifs at ho' <;> ((try dsimp only at ho'); cases ho'; simp_all))
              | ((try dsimp only at ho'); cases ho'; simp_all))

theorem reject_preserves_heldInv (M : MathPrims) (w : World)
    (rid reason otp1 otp2 : String) (now : ℕ) (rc : Option (ℚ × ℚ))
    (hw : HeldStatusImpliesRider w) :
    HeldStatusImpliesRider (reject_order M w rid reason otp1 otp2 now rc).1 := by
  intro o' ho' hst
  unfold reject_order at ho'
  split at ho'
  · exact hw o' ho' hst
  · rename_i o ho
    dsimp only at ho'
    split_ifs at ho' <;>
      first
        | exact hw o' ho' hst
        | (split at ho' <;>
            first
              | exact assign_preserves_heldInv M _ _ _ otp1 otp2 now o' ho' hst
              | (dsimp only at ho'
                 cases ho'
                 exact absurd hst
                   (show ¬(STATUS_AWAITING_RIDER_ASSIGNMENT = OFFERED_TO_RIDER ∨
                  STATUS_AWAITING_RIDER_ASSIGNMENT = RIDER_ASSIGNED ∨
                  STATUS_AWAITING_RIDER_ASSIGNMENT = PICKED_UP ∨
                  STATUS_AWAITING_RIDER_ASSIGNMENT = STATUS_OUT_FOR_DELIVERY) from by decide)))

theorem timeout_preserves_heldInv (M : MathPrims) (w : World)
    (er : Option String) (otp1 otp2 : String) (now : ℕ) (rc : Option (ℚ × ℚ))
    (hw : HeldStatusImpliesRider w) :
    HeldStatusImpliesRider (handle_offer_timeout M w er otp1 otp2 now rc) := by
  intro o' ho' hst
  unfold handle_offer_timeout at ho'
  split at ho'
  · exact hw o' ho' hst
  · rename_i o ho
    dsimp only at ho'
    split_ifs at ho' <;>
      first
        | exact hw o' ho' hst
        | (split at ho' <;>
            first
              | exact assign_preserves_heldInv M _ _ _ otp1 otp2 now o' ho' hst
              | (dsimp only at ho'
                 cases ho'
                 exact absurd hst
                   (show ¬(STATUS_AWAITING_RIDER_ASSIGNMENT = OFFERED_TO_RIDER ∨
                  STATUS_AWAITING_RIDER_ASSIGNMENT = RIDER_ASSIGNED ∨
                  STATUS_AWAITING_RIDER_ASSIGNMENT = PICKED_UP ∨
                  STATUS_AWAITING_RIDER_ASSIGNMENT = STATUS_OUT_FOR_DELIVERY) from by decide)))

theorem updateStatus_preserves_heldInv (w : World) (rid st : String) (now : ℕ)
    (hw : HeldStatusImpliesRider w) :
    HeldStatusImpliesRider (update_order_status_route w rid st now).1 := by
  intro o' ho' hst
  unfold update_order_status_route at ho'
  split_ifs at ho' <;>
    first
      | exact hw o' ho' hst
      | (split at ho' <;>
          first
            | exact hw o' ho' hst
            | (rename_i o ho
               (try dsimp only at ho')
               split_ifs at ho' <;>
                 first
                   | exact hw o' ho' hst
                   | ((try dsimp only at ho'); cases ho'; simp_all)))

/-- C8 (amended): in every state reachable through the dispatch operations,
`riderId` is set whenever the order's status is `OFFERED_TO_RIDER`,
`RIDER_ASSIGNED`, `PICKED_UP` or `OUT_FOR_DELIVERY` — the full "if"
direction of the claimed invariant, over the whole rider-held window.  The
"only if" direction is false: `riderId` persists into `DELIVERED` because
no dispatch operation clears it on delivery (counterexample below). -/
theorem C8_held_status_implies_rider_set (M : MathPrims) (w : World)
    (hw : Reachable M w) :
    ∀ o, w.order = some o →
      (o.status = OFFERED_TO_RIDER ∨ o.status = RIDER_ASSIGNED ∨
        o.status = PICKED_UP ∨ o.status = STATUS_OUT_FOR_DELIVERY) →
      o.riderId ≠ none := by
  induction hw with
  | init w h =>
    intro o ho hst
    rw [ho] at h
    rcases hst with h1 | h1 | h1 | h1
    · exact absurd h1 h.2.1
    · exact absurd h1 h.2.2.1
    · exact absurd h1 h.2.2.2.1
    · exact absurd h1 h.2.2.2.2
  | assign w lat lng otp1 otp2 now hw ih =>
    exact assign_preserves_heldInv M w lat lng otp1 otp2 now
  | accept w rid st now hw ih =>
    exact accept_preserves_heldInv w rid st now ih
  | reject w rid reason otp1 otp2 now rc hw ih =>
    exact reject_preserves_heldInv M w rid reason otp1 otp2 now rc ih
  | timeout w er otp1 otp2 now rc hw ih =>
    exact timeout_preserves_heldInv M w er otp1 otp2 now rc ih
  | updateStatus w rid st now hw ih =>
    exact updateStatus_preserves_heldInv w rid st now ih
  | riderEnv w rs hw ih =>
    exact fun o ho => ih o ho

/-- The trace refuting the claimed biconditional: offer, accept, pick up,
go out for delivery, deliver. -/
def c8World1 : World := (assign_order_to_rider samplePrims c7World 1 1 "1111" "2222" 100).1

def c8World2 : World := (accept_order c8World1 "r1" "RIDER_ASSIGNED" 101).1

def c8World3 : World := (update_order_status_route c8World2 "r1" "PICKED_UP" 102).1

def c8World4 : World := (update_order_status_route c8World3 "r1" "OUT_FOR_DELIVERY" 103).1

def c8World5 : World := (update_order_status_route c8World4 "r1" "DELIVERED" 104).1

theorem c8World1_eq : c8World1 =
    { orderId := "o1",
      order := some ({ order0 with
        riderId := some "r1", status := OFFERED_TO_RIDER, offeredAt := some 100 }),
      riders := [rider0] } := by
  unfold c8World1 c7World
  rw [assign_offer_rider0 samplePrims order0 "1111" "2222" 100 rfl
    (by unfold calculate_distance samplePrims; norm_num)]

/-- C8 counterexample: a state reachable through assign → accept → picked-up
→ out-for-delivery → delivered whose order has status `DELIVERED` and still
carries `riderId = r1` — refuting the claimed "only if" direction (a
`DELIVERED` order should have no `riderId` per the claim). -/
theorem C8_counterexample_delivered_keeps_rider :
    Reachable samplePrims c8World5 ∧
      c8World5.order.map Order.status = some STATUS_DELIVERED ∧
      c8World5.order.map Order.riderId = some (some "r1") := by
  refine ⟨?_, ?_, ?_⟩
  · exact .updateStatus c8World4 "r1" "DELIVERED" 104
      (.updateStatus c8World3 "r1" "OUT_FOR_DELIVERY" 103
        (.updateStatus c8World2 "r1" "PICKED_UP" 102
          (.accept c8World1 "r1" "RIDER_ASSIGNED" 101
            (.assign c7World 1 1 "1111" "2222" 100
              (.init c7World ⟨rfl, by decide⟩)))))
  · unfold c8World5 c8World4 c8World3 c8World2
    rw [c8World1_eq]
    decide
  · unfold c8World5 c8World4 c8World3 c8World2
    rw [c8World1_eq]
    decide

/-- Witness for C8 (amended) at the reachable offered state `c8World1`. -/
theorem C8_held_status_implies_rider_set_witness :
    Reachable samplePrims c8World1 ∧
      ∀ o, c8World1.order = some o →
        (o.status = OFFERED_TO_RIDER ∨ o.status = RIDER_ASSIGNED ∨
          o.status = PICKED_UP ∨ o.status = STATUS_OUT_FOR_DELIVERY) →
        o.riderId ≠ none :=
  ⟨.assign c7World 1 1 "1111" "2222" 100 (.init c7World ⟨rfl, by decide⟩),
    C8_held_status_implies_rider_set samplePrims c8World1
      (.assign c7World 1 1 "1111" "2222" 100 (.init c7World ⟨rfl, by decide⟩))⟩

end HonestEats
